import Mathlib

/-
Shallow embedding of the brother-ql-rs thermal-printer driver.

The definitions below are translated from the Rust sources:
  * src/printer/constants.rs : the label geometry table (`label_data`)
  * src/printer.rs           : the status decoder, the print command
                               sequence and `Media::to_label` / `current_label`
  * src/text.rs              : the canvas-to-raster bit packing
                               (`image_to_raster_lines`) and the font-size
                               descent of `ResizedText::create`

Machine integers (u8/u32/usize) are modelled as `Nat`; the `as u32`
truncation in the line count is reflected by taking each little-endian
byte modulo 256.  A Rust panic (out-of-bounds index, `.expect`) is
modelled by returning `none`.
-/

set_option maxRecDepth 20000

/-- Mirrors `constants::Label` (the `WidthLength` pairs become `Nat × Nat`). -/
structure Label where
  tape_size : Nat × Nat
  dots : Nat × Nat
  dots_printable : Nat × Nat
  right_margin : Nat
  feed_margin : Nat
deriving DecidableEq

/-- Mirrors `constants::label_data`: the fixed geometry table.  `width = none`
selects the continuous-tape table, `some w` the die-cut table. -/
def label_data (height : Nat) (width : Option Nat) : Option Label :=
  match width with
  | some width =>
    if height = 17 ∧ width = 54 then
      some ⟨(17, 54), (201, 636), (165, 566), 0, 0⟩
    else if height = 17 ∧ width = 87 then
      some ⟨(17, 87), (201, 1026), (165, 956), 0, 0⟩
    else if height = 23 ∧ width = 23 then
      some ⟨(23, 23), (272, 272), (202, 202), 42, 0⟩
    else if height = 29 ∧ width = 42 then
      some ⟨(29, 42), (342, 495), (306, 425), 6, 0⟩
    else if height = 29 ∧ width = 90 then
      some ⟨(29, 90), (342, 1061), (306, 991), 6, 0⟩
    else if height = 39 ∧ width = 90 then
      some ⟨(38, 90), (449, 1061), (413, 991), 12, 0⟩
    else if height = 39 ∧ width = 48 then
      some ⟨(39, 48), (461, 565), (425, 495), 6, 0⟩
    else if height = 52 ∧ width = 29 then
      some ⟨(52, 29), (614, 341), (578, 271), 0, 0⟩
    else if height = 62 ∧ width = 29 then
      some ⟨(62, 29), (732, 341), (696, 271), 12, 0⟩
    else if height = 62 ∧ width = 100 then
      some ⟨(62, 100), (732, 1179), (696, 1109), 12, 0⟩
    else none
  | none =>
    if height = 12 then
      some ⟨(12, 0), (142, 0), (106, 0), 29, 35⟩
    else if height = 29 then
      some ⟨(29, 0), (342, 0), (306, 0), 6, 35⟩
    else if height = 38 then
      some ⟨(38, 0), (449, 0), (413, 0), 12, 35⟩
    else if height = 50 then
      some ⟨(50, 0), (590, 0), (554, 0), 12, 35⟩
    else if height = 54 then
      some ⟨(54, 0), (636, 0), (590, 0), 0, 35⟩
    else if height = 62 then
      some ⟨(62, 0), (732, 0), (696, 0), 12, 35⟩
    else if height = 102 then
      some ⟨(102, 0), (1200, 0), (1164, 0), 12, 35⟩
    else none

/-- The key set of the geometry table, read off the match arms of
`label_data`. -/
def knownPairs : List (Nat × Option Nat) :=
  [(17, some 54), (17, some 87), (23, some 23), (29, some 42), (29, some 90),
   (39, some 90), (39, some 48), (52, some 29), (62, some 29), (62, some 100),
   (12, none), (29, none), (38, none), (50, none), (54, none), (62, none),
   (102, none)]

/-- Mirrors `status::MediaType`. -/
inductive MediaType where
  | none
  | continuousTape
  | dieCutLabels
deriving DecidableEq

/-- Mirrors `status::Media`. -/
structure Media where
  media_type : MediaType
  width : Nat
  length : Nat
deriving DecidableEq

/-- Mirrors `status::StatusType`. -/
inductive StatusType where
  | replyToStatusRequest
  | printingCompleted
  | errorOccurred
  | notification
  | phaseChange
deriving DecidableEq

/-- Mirrors `status::Response`. -/
structure Response where
  model : String
  status_type : StatusType
  errors : List String
  media : Media
deriving DecidableEq

/-- The `match media.length { 0 => None, _ => Some(length) }` step shared by
`Media::to_label` and `ThermalPrinter::current_label`. -/
def lengthToOption (length : Nat) : Option Nat :=
  if length = 0 then none else some length

/-- Mirrors `Media::to_label`.  The Rust body ends in
`.expect("Printer reported invalid label dimensions")`; the panic on a
failed lookup is modelled by `none`. -/
def Media.to_label (m : Media) : Option Label :=
  label_data m.width (lengthToOption m.length)

/-- The error cases a print attempt can end in (from `printer.rs`:
"No media loaded into printer" and "Unknown media loaded in printer"). -/
inductive PrintError where
  | noMediaLoaded
  | unknownMedia
deriving DecidableEq

/-- Mirrors the lookup half of `ThermalPrinter::current_label` (the status
query feeding it is passed in as the already-decoded `Media`). -/
def currentLabel (m : Media) : Except PrintError Label :=
  match label_data m.width (lengthToOption m.length) with
  | some label => Except.ok label
  | none => Except.error PrintError.unknownMedia

/-- Mirrors the model-byte table in `ThermalPrinter::read` (`response[4]`). -/
def modelName (byte : Nat) : String :=
  if byte = 0x4F then "QL-500/550"
  else if byte = 0x31 then "QL-560"
  else if byte = 0x32 then "QL-570"
  else if byte = 0x33 then "QL-580N"
  else if byte = 0x51 then "QL-650TD"
  else if byte = 0x35 then "QL-700"
  else if byte = 0x50 then "QL-1050"
  else if byte = 0x34 then "QL-1060N"
  else "Unknown"

/-- Mirrors the local `fn error_if` of `ThermalPrinter::read`:
append `message` when `byte & flag != 0`. -/
def error_if (byte flag : Nat) (message : String) (errors : List String) :
    List String :=
  if byte &&& flag ≠ 0 then errors ++ [message] else errors

/-- The nine `error_if` calls of `ThermalPrinter::read`, in source order:
all of byte 8's flags, then all of byte 9's. -/
def decodeErrors (b8 b9 : Nat) : List String :=
  let errors : List String := []
  let errors := error_if b8 0x01 "No media when printing" errors
  let errors := error_if b8 0x02 "End of media" errors
  let errors := error_if b8 0x04 "Tape cutter jam" errors
  let errors := error_if b8 0x10 "Main unit in use" errors
  let errors := error_if b8 0x80 "Fan doesn\x27t work" errors
  let errors := error_if b9 0x04 "Transmission error" errors
  let errors := error_if b9 0x10 "Cover open" errors
  let errors := error_if b9 0x40 "Cannot feed" errors
  let errors := error_if b9 0x80 "System error" errors
  errors

/-- Mirrors the media-type byte match in `ThermalPrinter::read`
(`response[11]`). -/
def mediaTypeOf (byte : Nat) : MediaType :=
  if byte = 0x0A then MediaType.continuousTape
  else if byte = 0x0B then MediaType.dieCutLabels
  else MediaType.none

/-- Mirrors the status-type byte match in `ThermalPrinter::read`
(`response[18]`); any unlisted value falls back to `Notification`. -/
def statusTypeOf (byte : Nat) : StatusType :=
  if byte = 0x00 then StatusType.replyToStatusRequest
  else if byte = 0x01 then StatusType.printingCompleted
  else if byte = 0x02 then StatusType.errorOccurred
  else if byte = 0x05 then StatusType.notification
  else if byte = 0x06 then StatusType.phaseChange
  else StatusType.notification

/-- Mirrors `ThermalPrinter::read`: the input list is the byte sequence the
bulk-in transfer produced; the decode fails (as the Rust code returns
`Err("Invalid response received from printer")`) exactly when fewer or more
than 32 bytes arrived or the marker byte is not 0x80. -/
def decode (response : List Nat) : Option Response :=
  if response.length ≠ 32 ∨ response.headD 0 ≠ 0x80 then none
  else
    some
      { model := modelName (response.getD 4 0)
        status_type := statusTypeOf (response.getD 18 0)
        errors := decodeErrors (response.getD 8 0) (response.getD 9 0)
        media :=
          { media_type := mediaTypeOf (response.getD 11 0)
            width := response.getD 10 0
            length := response.getD 17 0 } }

/-- The status-request command `1B 69 53` written by `get_status`. -/
def statusCommand : List Nat := [0x1B, 0x69, 0x53]

/-- The raster-mode command `1B 69 61 01` written at the top of `print`. -/
def modeCommand : List Nat := [0x1B, 0x69, 0x61, 1]

/-- `VALID_FLAGS` of `print`: `0x80 | 0x02 | 0x04 | 0x08 | 0x40`. -/
def VALID_FLAGS : Nat := 0x80 ||| 0x02 ||| 0x04 ||| 0x08 ||| 0x40

/-- The four bytes of `(n as u32).to_le_bytes()`.  Taking each byte modulo
256 of the untruncated `Nat` agrees with first truncating to 32 bits. -/
def le32 (n : Nat) : List Nat :=
  [n % 256, n / 2 ^ 8 % 256, n / 2 ^ 16 % 256, n / 2 ^ 24 % 256]

/-- The media descriptor of `print`: the 13-byte literal
`[1B, 69, 7A, flags, media_type, width, length, 0, 0, 0, 0, 01, 00]` with
bytes 7..10 overwritten by the little-endian line count. -/
def mediaCommand (mediaType width length lineCount : Nat) : List Nat :=
  [0x1B, 0x69, 0x7A, VALID_FLAGS, mediaType, width, length] ++
    le32 lineCount ++ [0x01, 0]

/-- Reads the embedded little-endian line count back out of a media
descriptor (bytes 7 to 10). -/
def parseCountLE (cmd : List Nat) : Nat :=
  cmd.getD 7 0 + 2 ^ 8 * cmd.getD 8 0 + 2 ^ 16 * cmd.getD 9 0 +
    2 ^ 24 * cmd.getD 10 0

/-- Auto-cut command `1B 69 4D 40` (`1 << 6`). -/
def autoCutCommand : List Nat := [0x1B, 0x69, 0x4D, 0x40]

/-- Cut-at-end / resolution command `1B 69 4B 08` (`1 << 3 | 0 << 6`). -/
def cutSettingsCommand : List Nat := [0x1B, 0x69, 0x4B, 0x08]

/-- Margins command `1B 69 64 <feed_margin> 00`. -/
def marginsCommand (feedMargin : Nat) : List Nat := [0x1B, 0x69, 0x64, feedMargin, 0]

/-- One raster-line command: header `67 00 5A` followed by the 90 line bytes
(`RASTER_LINE_LENGTH = 90`). -/
def rasterCommand (line : List Nat) : List Nat := [0x67, 0x00, 90] ++ line

/-- The print trigger byte `1A`. -/
def printTrigger : List Nat := [0x1A]

/-- The media-type code emitted in the media descriptor
(`ContinuousTape => 0x0A`, `DieCutLabels => 0x0B`); `none` for no media. -/
def mediaTypeCode : MediaType → Option Nat
  | MediaType.continuousTape => some 0x0A
  | MediaType.dieCutLabels => some 0x0B
  | MediaType.none => none

/-- Mirrors the write sequence of `ThermalPrinter::print`: given the status
reply the printer returns (assumed stable across the two status queries)
and the raster lines, it yields the ordered list of commands written to the
bulk-out endpoint together with the error the function returns, if any.
The order follows the source: `get_status` (a status-command write), the
mode command, the media-type match (early `Err` on `None`), the media
descriptor, auto-cut, cut settings, `current_label` (a second
status-command write and the table lookup, early `Err` on a miss), margins,
one raster command per line, and the trigger. -/
def printTrace (resp : Response) (lines : List (List Nat)) :
    List (List Nat) × Option PrintError :=
  match mediaTypeCode resp.media.media_type with
  | none => ([statusCommand, modeCommand], some PrintError.noMediaLoaded)
  | some mt =>
    match label_data resp.media.width (lengthToOption resp.media.length) with
    | none =>
      ([statusCommand, modeCommand,
        mediaCommand mt resp.media.width resp.media.length lines.length,
        autoCutCommand, cutSettingsCommand, statusCommand],
       some PrintError.unknownMedia)
    | some label =>
      ([statusCommand, modeCommand,
        mediaCommand mt resp.media.width resp.media.length lines.length,
        autoCutCommand, cutSettingsCommand, statusCommand,
        marginsCommand label.feed_margin] ++
         lines.map rasterCommand ++ [printTrigger],
       none)

/-- The binarization of `image_to_raster_lines`: a luma strictly above
`0xFF / 2 = 127` is blank (0), anything else is ink (1). -/
def pixelValue (luma : Nat) : Nat :=
  if luma > 255 / 2 then 0 else 1

/-- One iteration of the row loop of `image_to_raster_lines`.  The state is
`(line, line_byte, line_bit_index)`; the bit index is decremented first,
rolling over to the next byte when it goes negative, and then the pixel bit
is ORed into `line[line_byte]`.  The Rust indexing `line[line_byte]` panics
when `line_byte` is out of bounds; that is the `none` case. -/
def packRow (img : Nat → Nat → Nat) (c : Nat) (st : List Nat × Nat × Int)
    (r : Nat) : Option (List Nat × Nat × Int) :=
  match st with
  | (line, lineByte0, bitIndex0) =>
    let bitIndex1 := bitIndex0 - 1
    let lineByte := if bitIndex1 < 0 then lineByte0 + 1 else lineByte0
    let bitIndex := if bitIndex1 < 0 then bitIndex1 + 8 else bitIndex1
    let value := pixelValue (img c r)
    if lineByte < line.length then
      some (line.set lineByte (line.getD lineByte 0 ||| value <<< bitIndex.toNat),
            lineByte, bitIndex)
    else none

/-- Mirrors `text::image_to_raster_lines`.  The canvas is the luma function
`img` with x-extent `width` (the Rust `width` parameter) and y-extent
`lineCount` (`image.len() / width`).  Each column `c` is packed into a
90-byte line starting from state `(zeroed line, byte 1, bit index 3)`; a
panic in any column makes the whole conversion `none`. -/
def image_to_raster_lines (img : Nat → Nat → Nat) (width lineCount : Nat) :
    Option (List (List Nat)) :=
  (List.range width).mapM fun c =>
    Option.map (fun st => st.1)
      ((List.range lineCount).foldlM (packRow img c)
        (List.replicate 90 0, 1, (3 : Int)))

/-- The canvas dimensions `(length, width)` that `TextRasterizer::rasterize`
allocates for a label, without a secondary image: continuous tape gets the
default length 750 and width `dots_printable.0 + right_margin` (plus the
25-pixel pad for 12 mm tape); die-cut labels get
`(dots_printable.1, dots_printable.0 + right_margin)`. -/
def canvasDims (label : Label) : Nat × Nat :=
  if label.tape_size.2 = 0 then
    (750, label.dots_printable.1 + label.right_margin +
      (if label.tape_size.1 = 12 then 25 else 0))
  else
    (label.dots_printable.2, label.dots_printable.1 + label.right_margin)

/-- Mirrors the font-size descent loop of `ResizedText::create`: starting
from `fontSize` (the ceiling of the requested maximum), keep decreasing by
one until the laid-out width is strictly below `maxWidth`.  The glyph
layout of the external font library is abstracted as the width function
`w`; the Rust loop has no termination guarantee, so the recursion carries
explicit fuel and any terminating run of the loop is `some` for a large
enough fuel. -/
def fitFontSize (w : Int → Nat) (maxWidth : Nat) : Nat → Int → Option Int
  | 0, _ => none
  | fuel + 1, fontSize =>
    if w fontSize < maxWidth then some fontSize
    else fitFontSize w maxWidth fuel (fontSize - 1)

/-- Spec-side catalog of byte-8 error flags, in the declared order. -/
def byte8Flags : List (Nat × String) :=
  [(0x01, "No media when printing"), (0x02, "End of media"),
   (0x04, "Tape cutter jam"), (0x10, "Main unit in use"),
   (0x80, "Fan doesn\x27t work")]

/-- Spec-side catalog of byte-9 error flags, in the declared order. -/
def byte9Flags : List (Nat × String) :=
  [(0x04, "Transmission error"), (0x10, "Cover open"),
   (0x40, "Cannot feed"), (0x80, "System error")]

/-- Spec-side reading of the error list: every set flag of byte 8 in
declared order, then every set flag of byte 9. -/
def errorsSpec (b8 b9 : Nat) : List String :=
  (byte8Flags.filter fun p => b8 &&& p.1 != 0).map Prod.snd ++
    (byte9Flags.filter fun p => b9 &&& p.1 != 0).map Prod.snd

/-- The all-black test canvas: every luma is 0 (ink). -/
def blackDot : Nat → Nat → Nat := fun _ _ => 0

/-- The all-white test canvas: every luma is 255 (blank). -/
def whiteCanvas : Nat → Nat → Nat := fun _ _ => 255

/-- C1: the claim puts the first canvas row of a column at bit 3 of byte 1
(so a single black row would give byte 1 = 0x08 and four black rows would
fill the low nibble, byte 1 = 0x0F).  The code pre-decrements the bit index
before the first write, so the first row lands at bit 2: one black row
yields byte 1 = 0x04, and four black rows roll over after only three bits,
yielding byte 1 = 0x07 and byte 2 = 0x80. -/
theorem packing_first_row_at_bit2 :
    image_to_raster_lines blackDot 1 1 =
      some [0 :: 4 :: List.replicate 88 0] ∧
    image_to_raster_lines blackDot 1 4 =
      some [0 :: 7 :: 128 :: List.replicate 87 0] := by
  constructor <;> rfl

/-- C2: the 62 mm continuous entry of the geometry table gives a canvas of
750 × 708 dots, and converting even the all-white canvas of that supported
geometry panics (an out-of-bounds write at byte index 90 on the last row)
instead of producing all-zero raster lines. -/
theorem white_62mm_canvas_overflows :
    Option.map canvasDims (label_data 62 none) = some (750, 708) ∧
    image_to_raster_lines whiteCanvas 750 708 = none := by
  constructor
  · rfl
  · rfl

/-- C3: geometry lookup reproduces the two documented representative
entries exactly, succeeds on every key of the table, and returns `none`
for every (width, optional length) pair outside the key set. -/
theorem label_data_exact_and_total :
    label_data 12 none = some ⟨(12, 0), (142, 0), (106, 0), 29, 35⟩ ∧
    label_data 29 (some 90) = some ⟨(29, 90), (342, 1061), (306, 991), 6, 0⟩ ∧
    (∀ p ∈ knownPairs, (label_data p.1 p.2).isSome) ∧
    (∀ h l, (h, l) ∉ knownPairs → label_data h l = none) := by
  refine ⟨by decide, by decide, by decide, ?_⟩
  intro h l hne
  rcases l with _ | w
  · have k12 : h ≠ 12 := fun e => hne (by subst e; decide)
    have k29 : h ≠ 29 := fun e => hne (by subst e; decide)
    have k38 : h ≠ 38 := fun e => hne (by subst e; decide)
    have k50 : h ≠ 50 := fun e => hne (by subst e; decide)
    have k54 : h ≠ 54 := fun e => hne (by subst e; decide)
    have k62 : h ≠ 62 := fun e => hne (by subst e; decide)
    have k102 : h ≠ 102 := fun e => hne (by subst e; decide)
    simp [label_data, k12, k29, k38, k50, k54, k62, k102]
  · have d1 : ¬(h = 17 ∧ w = 54) := fun ⟨e1, e2⟩ => hne (by subst e1; subst e2; decide)
    have d2 : ¬(h = 17 ∧ w = 87) := fun ⟨e1, e2⟩ => hne (by subst e1; subst e2; decide)
    have d3 : ¬(h = 23 ∧ w = 23) := fun ⟨e1, e2⟩ => hne (by subst e1; subst e2; decide)
    have d4 : ¬(h = 29 ∧ w = 42) := fun ⟨e1, e2⟩ => hne (by subst e1; subst e2; decide)
    have d5 : ¬(h = 29 ∧ w = 90) := fun ⟨e1, e2⟩ => hne (by subst e1; subst e2; decide)
    have d6 : ¬(h = 39 ∧ w = 90) := fun ⟨e1, e2⟩ => hne (by subst e1; subst e2; decide)
    have d7 : ¬(h = 39 ∧ w = 48) := fun ⟨e1, e2⟩ => hne (by subst e1; subst e2; decide)
    have d8 : ¬(h = 52 ∧ w = 29) := fun ⟨e1, e2⟩ => hne (by subst e1; subst e2; decide)
    have d9 : ¬(h = 62 ∧ w = 29) := fun ⟨e1, e2⟩ => hne (by subst e1; subst e2; decide)
    have d10 : ¬(h = 62 ∧ w = 100) := fun ⟨e1, e2⟩ => hne (by subst e1; subst e2; decide)
    simp [label_data, d1, d2, d3, d4, d5, d6, d7, d8, d9, d10]

/-- C3 witness: the unknown pair (13, continuous) is rejected. -/
theorem label_data_exact_and_total_witness :
    ((13 : Nat), (none : Option Nat)) ∉ knownPairs ∧ label_data 13 none = none :=
  ⟨by decide, label_data_exact_and_total.2.2.2 13 none (by decide)⟩

/-- C4: status decode is a function of the received bytes (it is a pure
Lean function, so identical input gives identical output by definition),
and it fails — producing `none`, hence no partial `Response` — exactly
when the received length is not 32 or byte 0 is not 0x80. -/
theorem decode_malformed_iff (response : List Nat) :
    decode response = none ↔
      response.length ≠ 32 ∨ response.headD 0 ≠ 0x80 := by
  unfold decode
  split
  · simp_all
  · simp_all

/-- A 32-byte status reply with marker 0x80, error bytes `b8`/`b9` and all
other bytes zero (used to exercise the error-flag decoding). -/
def statusBytes (b8 b9 : Nat) : List Nat :=
  [0x80, 0, 0, 0, 0, 0, 0, 0, b8, b9,
   0, 0, 0, 0, 0, 0, 0, 0, 0, 0,
   0, 0, 0, 0, 0, 0, 0, 0, 0, 0, 0, 0]

/-- Folding `error_if` over a flag catalog appends exactly the descriptions
of the set flags, in catalog order. -/
theorem foldl_error_if (b : Nat) (flags : List (Nat × String))
    (errs : List String) :
    flags.foldl (fun e p => error_if b p.1 p.2 e) errs
      = errs ++ (flags.filter fun p => b &&& p.1 != 0).map Prod.snd := by
  induction flags generalizing errs with
  | nil => simp
  | cons p ps ih =>
    rw [List.foldl_cons, ih, List.filter_cons]
    by_cases h : b &&& p.1 = 0
    · simp [error_if, h]
    · simp [error_if, h]

set_option maxHeartbeats 1000000 in
/-- C5: the decoded error list is exactly the fixed 9-flag catalog filtered
by the set bits — all of byte 8's flags in declared order, then all of
byte 9's — and on whole replies, bits {0x01, 0x80} in byte 8 give exactly
["No media when printing", "Fan doesn\x27t work"] in that order while no set
bits give the empty list (which is not a decode failure). -/
theorem decode_errors_order_stable :
    (∀ b8 b9, decodeErrors b8 b9 = errorsSpec b8 b9) ∧
    Option.map Response.errors (decode (statusBytes 0x81 0)) =
      some ["No media when printing", "Fan doesn\x27t work"] ∧
    Option.map Response.errors (decode (statusBytes 0 0)) = some [] := by
  refine ⟨?_, by rfl, by rfl⟩
  intro b8 b9
  have key : decodeErrors b8 b9
      = byte9Flags.foldl (fun e p => error_if b9 p.1 p.2 e)
          (byte8Flags.foldl (fun e p => error_if b8 p.1 p.2 e) []) := rfl
  rw [key, foldl_error_if, foldl_error_if]
  simp [errorsSpec]

/-- The status reply of the end-to-end scenario: marker 0x80, model byte
0x35, no error bits, width 29, media type 0x0A, length 0, status type 0. -/
def c6Bytes : List Nat :=
  [0x80, 0, 0, 0, 0x35, 0, 0, 0, 0, 0,
   29, 0x0A, 0, 0, 0, 0, 0, 0, 0, 0,
   0, 0, 0, 0, 0, 0, 0, 0, 0, 0, 0, 0]

set_option maxHeartbeats 1000000 in
/-- C6: the scenario bytes decode to model "QL-700", a reply-to-status
status, no errors and continuous 29 mm media of length 0, and resolving
that media through the geometry table (length 0 mapped to the continuous
table) gives the 29 mm continuous entry with feed margin 35 and right
margin 6. -/
theorem c6_end_to_end :
    decode c6Bytes = some
      { model := "QL-700"
        status_type := StatusType.replyToStatusRequest
        errors := []
        media := { media_type := MediaType.continuousTape, width := 29, length := 0 } } ∧
    label_data 29 (lengthToOption 0) = some ⟨(29, 0), (342, 0), (306, 0), 6, 35⟩ := by
  exact ⟨by rfl, by rfl⟩

set_option maxHeartbeats 1000000 in
/-- C7: the media descriptor is 13 bytes of the documented shape, its
little-endian count field round-trips any line count below 2^32 (so in
particular 0, 1 and 65535), the descriptor written by `print` carries the
length of the raster-line sequence, and a print of 0 raster lines writes a
count field of four zero bytes and no raster-line command (opcode 0x67)
anywhere before the trigger. -/
theorem media_descriptor_roundtrip (resp : Response) (lines : List (List Nat))
    (mt : Nat) (hmt : mediaTypeCode resp.media.media_type = some mt)
    (hn : lines.length < 2 ^ 32) :
    (mediaCommand mt resp.media.width resp.media.length lines.length).length = 13 ∧
    parseCountLE (mediaCommand mt resp.media.width resp.media.length lines.length)
      = lines.length ∧
    mediaCommand mt resp.media.width resp.media.length lines.length
      ∈ (printTrace resp lines).1 ∧
    mediaCommand mt resp.media.width resp.media.length 0
      = [0x1B, 0x69, 0x7A, VALID_FLAGS, mt, resp.media.width, resp.media.length,
         0, 0, 0, 0, 0x01, 0] ∧
    (∀ cmd ∈ (printTrace resp []).1, cmd.headD 0 ≠ 0x67) := by
  refine ⟨by rfl, ?_, ?_, by rfl, ?_⟩
  · have hp : parseCountLE (mediaCommand mt resp.media.width resp.media.length
        lines.length)
        = lines.length % 256 + 2 ^ 8 * (lines.length / 2 ^ 8 % 256) +
          2 ^ 16 * (lines.length / 2 ^ 16 % 256) +
          2 ^ 24 * (lines.length / 2 ^ 24 % 256) := rfl
    rw [hp]
    omega
  · unfold printTrace
    rw [hmt]
    rcases hlab : label_data resp.media.width (lengthToOption resp.media.length)
      with _ | lab <;> simp
  · intro cmd hcmd
    unfold printTrace at hcmd
    rw [hmt] at hcmd
    rcases hlab : label_data resp.media.width (lengthToOption resp.media.length)
      with _ | lab <;> rw [hlab] at hcmd <;> simp at hcmd <;>
      rcases hcmd with rfl | rfl | rfl | rfl | rfl | rfl | rfl | rfl <;>
      simp [statusCommand, modeCommand, mediaCommand, autoCutCommand,
        cutSettingsCommand, marginsCommand, printTrigger, le32]

/-- C7 witness: a concrete continuous-29mm reply printing zero lines. -/
theorem media_descriptor_roundtrip_witness :
    parseCountLE (mediaCommand 0x0A 29 0 0) = 0 ∧
    (mediaCommand 0x0A 29 0 0).length = 13 :=
  ⟨(media_descriptor_roundtrip
      ⟨"QL-700", StatusType.replyToStatusRequest, [],
        ⟨MediaType.continuousTape, 29, 0⟩⟩ [] 0x0A rfl (by decide)).2.1,
   (media_descriptor_roundtrip
      ⟨"QL-700", StatusType.replyToStatusRequest, [],
        ⟨MediaType.continuousTape, 29, 0⟩⟩ [] 0x0A rfl (by decide)).1⟩

/-- A status reply whose media kind is `None` (nothing loaded). -/
def respNoMedia : Response :=
  { model := "QL-700"
    status_type := StatusType.replyToStatusRequest
    errors := []
    media := { media_type := MediaType.none, width := 0, length := 0 } }

/-- C8 counterexample: with no media loaded, `print` does fail with
`NoMediaLoaded`, but the transport has already received command bytes
before the failure — the status request and, in particular, the
state-changing raster-mode-select command — so the write trace is not
empty and the device is not left untouched. -/
theorem print_no_media_writes_mode_first :
    (printTrace respNoMedia []).2 = some PrintError.noMediaLoaded ∧
    modeCommand ∈ (printTrace respNoMedia []).1 ∧
    (printTrace respNoMedia []).1 ≠ [] := by
  refine ⟨rfl, ?_, by decide⟩
  show modeCommand ∈ [statusCommand, modeCommand]
  simp

/-- C8 (amended): when the queried media kind is `None`, `print` fails with
`NoMediaLoaded` having written exactly the status-request and
raster-mode-select commands — no media descriptor, cut settings, margins,
raster data or trigger are emitted. -/
theorem print_no_media_early_return (resp : Response) (lines : List (List Nat))
    (h : resp.media.media_type = MediaType.none) :
    printTrace resp lines =
      ([statusCommand, modeCommand], some PrintError.noMediaLoaded) := by
  unfold printTrace
  rw [h]
  rfl

/-- C8 witness: the amended statement at the concrete no-media reply. -/
theorem print_no_media_early_return_witness :
    printTrace respNoMedia [] =
      ([statusCommand, modeCommand], some PrintError.noMediaLoaded) :=
  print_no_media_early_return respNoMedia [] rfl

/-- If the font-size descent returns a result, that result satisfies the
fit predicate, is at most the starting size, and every size in between
fails the predicate: it is the largest stepped size that fits. -/
theorem fitFontSize_spec (w : Int → Nat) (L : Nat) :
    ∀ (fuel : Nat) (S r : Int), fitFontSize w L fuel S = some r →
      w r < L ∧ r ≤ S ∧ ∀ n : Int, r < n → n ≤ S → L ≤ w n := by
  intro fuel
  induction fuel with
  | zero => intro S r h; simp [fitFontSize] at h
  | succ fuel ih =>
    intro S r h
    rw [fitFontSize] at h
    by_cases hw : w S < L
    · rw [if_pos hw] at h
      obtain rfl : S = r := by simpa using h
      exact ⟨hw, le_refl S, fun n h1 h2 => absurd h1 (not_lt.mpr h2)⟩
    · rw [if_neg hw] at h
      obtain ⟨hwr, hrS, hall⟩ := ih (S - 1) r h
      refine ⟨hwr, by omega, fun n h1 h2 => ?_⟩
      by_cases hn : n ≤ S - 1
      · exact hall n h1 hn
      · have : n = S := by omega
        subst this
        exact not_lt.mp hw

/-- C9: a successful run of the `ResizedText::create` descent (glyph
layout abstracted as the width function `w`) picks the largest
integer-stepped font size at most the starting size whose rendered width
is strictly below the canvas length, and starting lower can only give a
result at most the original one. -/
theorem fitFontSize_largest (w : Int → Nat) (L : Nat) (fuel fuel2 : Nat)
    (S S2 r r2 : Int) (h : fitFontSize w L fuel S = some r)
    (h2 : fitFontSize w L fuel2 S2 = some r2) (hS : S2 ≤ S) :
    (w r < L ∧ r ≤ S ∧ ∀ n : Int, r < n → n ≤ S → L ≤ w n) ∧ r2 ≤ r := by
  obtain ⟨hw1, hr1, hall1⟩ := fitFontSize_spec w L fuel S r h
  obtain ⟨hw2, hr2, _⟩ := fitFontSize_spec w L fuel2 S2 r2 h2
  refine ⟨⟨hw1, hr1, hall1⟩, ?_⟩
  by_contra hlt
  push_neg at hlt
  have hge := hall1 r2 hlt (le_trans hr2 hS)
  omega

/-- A concrete width function: 10 pixels per font-size unit. -/
def wLinear : Int → Nat := fun s => s.toNat * 10

/-- C9 witness: with widths 10·size and limit 35, the descent from size 5
picks 3 (size 4 does not fit), and the descent from size 4 also picks 3. -/
theorem fitFontSize_largest_witness :
    (35 : Nat) ≤ wLinear 4 ∧ (3 : Int) ≤ 3 :=
  ⟨(fitFontSize_largest wLinear 35 10 10 5 4 3 3 rfl rfl (by decide)).1.2.2
      4 (by decide) (by decide),
   (fitFontSize_largest wLinear 35 10 10 5 4 3 3 rfl rfl (by decide)).2⟩

/-- C10: for media whose (width, length-as-option) pair has no table entry,
the public `Media::to_label` hits its unguarded `.expect` and panics
(modelled as `none`), while `current_label` on the same media returns the
`UnknownMedia` error instead. -/
theorem to_label_panics_on_unknown (m : Media)
    (h : label_data m.width (lengthToOption m.length) = none) :
    Media.to_label m = none ∧
    currentLabel m = Except.error PrintError.unknownMedia := by
  constructor
  · exact h
  · unfold currentLabel
    rw [h]

/-- C10 witness: 13 mm continuous media is not in the table. -/
theorem to_label_panics_on_unknown_witness :
    Media.to_label ⟨MediaType.continuousTape, 13, 0⟩ = none ∧
    currentLabel ⟨MediaType.continuousTape, 13, 0⟩ =
      Except.error PrintError.unknownMedia :=
  to_label_panics_on_unknown ⟨MediaType.continuousTape, 13, 0⟩ (by decide)
